import Mathlib

/-!
Shallow embedding of the Multi-Task LLM API
(src/Multi-Task_LLM_API/app.py and src/Multi-Task_LLM_API/gemini_wrapper.py).

The external LLM provider is modelled as an oracle of type
`LLMCall → Except String String`: it receives the call the wrapper code
builds (model name, sampling temperature, input) and either returns text or
fails with an exception whose string description is the `Except.error`
payload.  Each wrapper function returns the list of provider calls it made
together with the provider's result, so that "invokes the provider exactly
once" is visible in the embedding.
-/

namespace MultiTaskLLM

/-- Input handed to `llm.invoke` in gemini_wrapper.py: either a raw prompt
string (generate_text) or a list of HumanMessage contents (generate_code,
classify_text). -/
inductive LLMInput where
  | raw (prompt : String)
  | messages (msgs : List String)
deriving DecidableEq, Repr

/-- One provider invocation as constructed by gemini_wrapper.py:
the `ChatGoogleGenerativeAI(model=..., temperature=...)` configuration plus
the argument of `llm.invoke`.  The sampling temperature is measured in
tenths (0.7 ↦ 7, 0.2 ↦ 2, 0 ↦ 0), which represents the three literal
values of the source exactly. -/
structure LLMCall where
  model : String
  temperature : Nat
  input : LLMInput
deriving DecidableEq, Repr

/-- The provider oracle: returns generated text, or fails with an exception
whose string description is the error payload. -/
abbrev Provider := LLMCall → Except String String

/-- The ASCII single-quote character, used verbatim inside the
classification prompt built by classify_text. -/
def sq : String := String.singleton (Char.ofNat 39)

/-- The call built by `generate_text` in gemini_wrapper.py: model
"gemini-pro", temperature 0.7 (7 tenths), invoked on the raw prompt. -/
def generate_text_call (prompt : String) : LLMCall :=
  { model := "gemini-pro", temperature := 7, input := .raw prompt }

/-- gemini_wrapper.generate_text: one provider call on the raw prompt at
temperature 0.7; returns `response.content` verbatim. -/
def generate_text (llm : Provider) (prompt : String) :
    List LLMCall × Except String String :=
  ([generate_text_call prompt], llm (generate_text_call prompt))

/-- The instruction template of `generate_code` in gemini_wrapper.py. -/
def code_template (prompt : String) : String :=
  "You are a helpful coding assistant. Generate code for the following prompt: "
    ++ prompt

/-- The call built by `generate_code`: model "gemini-pro", temperature 0.2
(2 tenths), invoked on a single HumanMessage holding the templated
prompt. -/
def generate_code_call (prompt : String) : LLMCall :=
  { model := "gemini-pro", temperature := 2,
    input := .messages [code_template prompt] }

/-- gemini_wrapper.generate_code: one provider call on the templated prompt
at temperature 0.2; returns `response.content` with no further parsing. -/
def generate_code (llm : Provider) (prompt : String) :
    List LLMCall × Except String String :=
  ([generate_code_call prompt], llm (generate_code_call prompt))

/-- The classification prompt built by `classify_text` in
gemini_wrapper.py (an f-string quoting the text in single quotes and
joining the categories with ", "). -/
def classify_prompt (text : String) (categories : List String) : String :=
  "Classify the following text: " ++ sq ++ text ++ sq
    ++ " into one of the following categories: "
    ++ String.intercalate ", " categories
    ++ ". Only return the category name."

/-- The call built by `classify_text`: model "gemini-pro", temperature 0,
invoked on a single HumanMessage holding the classification prompt. -/
def classify_text_call (text : String) (categories : List String) : LLMCall :=
  { model := "gemini-pro", temperature := 0,
    input := .messages [classify_prompt text categories] }

/-- gemini_wrapper.classify_text: one provider call at temperature 0;
returns `response.content` raw, with no check that the answer is one of the
supplied categories. -/
def classify_text (llm : Provider) (text : String) (categories : List String) :
    List LLMCall × Except String String :=
  ([classify_text_call text categories], llm (classify_text_call text categories))

/-! ### Request handlers (app.py) -/

/-- A parsed JSON request body, as read by the handlers through
`data.get(...)`: each field is absent (`none`) or present.  The handlers
only ever read these three keys. -/
structure ReqBody where
  prompt : Option String := none
  text : Option String := none
  categories : Option (List String) := none
deriving DecidableEq, Repr

/-- Python truthiness of an optional string: `not x` is true when the key
is absent or the string is empty. -/
def truthyStr : Option String → Bool
  | none => false
  | some s => s != ""

/-- Python truthiness of an optional list: `not x` is true when the key is
absent or the list is empty. -/
def truthyList : Option (List String) → Bool
  | none => false
  | some l => l != []

/-- A JSON response body returned by a handler in app.py: one of the
literal dicts appearing in the source. -/
inductive RespBody where
  | errorMsg (msg : String)
  | generatedText (s : String)
  | generatedCode (s : String)
  | classification (s : String)
deriving DecidableEq, Repr

/-- An HTTP-style response produced by a handler: status code and body.
Flask uses status 200 when a handler returns a dict without a code. -/
structure Response where
  status : Nat
  body : RespBody
deriving DecidableEq, Repr

/-- A Python exception escaping a handler (not caught by its try/except).
`data.get(...)` on a `None` body raises AttributeError before the
validation check runs. -/
inductive PyExn where
  | attributeError (msg : String)
deriving DecidableEq, Repr

/-- What a handler's `post` method does: either it returns a response
(recording the provider calls made along the way), or an exception escapes
it. -/
abbrev HandlerResult := Except PyExn (Response × List LLMCall)

/-- TextGeneration.post (app.py lines 74-84): read `prompt` from the parsed
body, reject with 400 when falsy, otherwise call generate_text inside
try/except, mapping success to 200 and any exception to 500 with `str(e)`. -/
def TextGeneration_post (llm : Provider) (data : Option ReqBody) : HandlerResult :=
  match data with
  | none => .error (.attributeError "NoneType object has no attribute get")
  | some d =>
    if !truthyStr d.prompt then
      .ok ({ status := 400, body := .errorMsg "Prompt is required" }, [])
    else
      match generate_text llm (d.prompt.getD "") with
      | (calls, .ok text) =>
        .ok ({ status := 200, body := .generatedText text }, calls)
      | (calls, .error e) =>
        .ok ({ status := 500, body := .errorMsg e }, calls)

/-- CodeGeneration.post (app.py lines 98-109): same shape as
TextGeneration.post but dispatching to generate_code. -/
def CodeGeneration_post (llm : Provider) (data : Option ReqBody) : HandlerResult :=
  match data with
  | none => .error (.attributeError "NoneType object has no attribute get")
  | some d =>
    if !truthyStr d.prompt then
      .ok ({ status := 400, body := .errorMsg "Prompt is required" }, [])
    else
      match generate_code llm (d.prompt.getD "") with
      | (calls, .ok code) =>
        .ok ({ status := 200, body := .generatedCode code }, calls)
      | (calls, .error e) =>
        .ok ({ status := 500, body := .errorMsg e }, calls)

/-- TextClassification.post (app.py lines 123-135): read `text` and
`categories`, reject with 400 when either is falsy, otherwise call
classify_text inside try/except. -/
def TextClassification_post (llm : Provider) (data : Option ReqBody) : HandlerResult :=
  match data with
  | none => .error (.attributeError "NoneType object has no attribute get")
  | some d =>
    if !truthyStr d.text || !truthyList d.categories then
      .ok ({ status := 400, body := .errorMsg "Text and categories are required" }, [])
    else
      match classify_text llm (d.text.getD "") (d.categories.getD []) with
      | (calls, .ok c) =>
        .ok ({ status := 200, body := .classification c }, calls)
      | (calls, .error e) =>
        .ok ({ status := 500, body := .errorMsg e }, calls)

/-! ### Rate limiter and service pipeline -/

/-- The three rate-limited endpoints of app.py. -/
inductive Endpoint where
  | generateText
  | generateCode
  | classifyText
deriving DecidableEq, Repr

/-- Route of each endpoint under the `/api/v1` prefix. -/
def endpointPath : Endpoint → String
  | .generateText => "/api/v1/generate/text"
  | .generateCode => "/api/v1/generate/code"
  | .classifyText => "/api/v1/classify/text"

/-- The `default_limits` strings handed to `Limiter(...)` in app.py. -/
def default_limits : List String := ["200 per day", "50 per hour"]

/-- The per-route limit string of the `@limiter.limit(...)` decorator that
appears on every one of the three `post` methods in app.py. -/
def route_limit : String := "10 per minute"

/-- Seconds in each window unit of the limit-string grammar. -/
def unitSeconds : String → Option Nat
  | "minute" => some 60
  | "hour" => some 3600
  | "day" => some 86400
  | _ => none

/-- Decimal value of a digit string, used by the limit-string parser. -/
def digitsToNat (l : List Char) : Nat :=
  l.foldl (fun n c => 10 * n + (c.toNat - 48)) 0

/-- Modelled from the spec: flask-limiter (the library enforcing the limit
strings, not part of this repository) parses "N per unit" into a quota N
over a fixed window of that unit; returns (quota, window length in
seconds). -/
def parseLimit (s : String) : Option (Nat × Nat) :=
  match s.data.splitOn ' ' with
  | [n, p, u] =>
    if p = "per".data && !n.isEmpty && n.all Char.isDigit then
      match unitSeconds ⟨u⟩ with
      | some w => some (digitsToNat n, w)
      | none => none
    else none
  | _ => none

/-- A rate-limit counter key: (client identifier, window scope, fixed
window index).  The scope distinguishes the global windows from the
per-endpoint window, and the day window from the hour window. -/
abbrev WinKey := String × String × Nat

/-- Modelled from the spec: the limiter's in-memory counter store
(`storage_uri="memory://"`), one counter per (client, window) key, lazily
zero for windows never touched. -/
structure LimState where
  counts : WinKey → Nat

/-- The counter store at process start: all counters zero. -/
def freshLim : LimState := ⟨fun _ => 0⟩

/-- Increment the counter of one key. -/
def bump (st : LimState) (k : WinKey) : LimState :=
  ⟨fun k2 => if k2 = k then st.counts k + 1 else st.counts k2⟩

/-- Modelled from the spec (section 4.2): fixed-window counting — on each
request, for every applicable window, increment the stored counter for the
current window key and compare to the quota; the request is admitted only
if no window's counter exceeds its quota. -/
def limiterHit (st : LimState) (ws : List (WinKey × Nat)) : LimState × Bool :=
  let st2 := ws.foldl (fun s kq => bump s kq.1) st
  (st2, ws.all (fun kq => st2.counts kq.1 ≤ kq.2))

/-- The windows applicable to a request by client `c` on endpoint `e` at
time `t` (seconds): the two global default limits of app.py plus the
per-endpoint route limit, each with its fixed-window index `t / window`. -/
def requestWindows (c : String) (e : Endpoint) (t : Nat) : List (WinKey × Nat) :=
  (default_limits.filterMap parseLimit).map
      (fun qw => ((c, "app/" ++ toString qw.2, t / qw.2), qw.1))
    ++ (parseLimit route_limit).toList.map
      (fun qw => ((c, endpointPath e ++ "/" ++ toString qw.2, t / qw.2), qw.1))

deriving instance DecidableEq for Except

/-- Outcome of one inbound request: rejected by the limiter before the
handler runs (HTTP 429), or handled by the endpoint's `post` method. -/
inductive RequestOutcome where
  | rateLimited
  | handled (result : HandlerResult)
deriving DecidableEq, Repr

/-- The provider calls the adapter made during a request: none when the
limiter rejected it or an exception escaped the handler. -/
def outcomeCalls : RequestOutcome → List LLMCall
  | .rateLimited => []
  | .handled (.error _) => []
  | .handled (.ok pr) => pr.2

/-- The `post` method serving each endpoint. -/
def handlerFor : Endpoint → Provider → Option ReqBody → HandlerResult
  | .generateText => TextGeneration_post
  | .generateCode => CodeGeneration_post
  | .classifyText => TextClassification_post

/-- One request through the limiter with an explicit window list `ws`:
the limiter check runs first (the decorator wraps the handler) and the
handler only runs when every window admits the request. -/
def serviceHandleW (ws : List (WinKey × Nat)) (llm : Provider) (e : Endpoint)
    (st : LimState) (data : Option ReqBody) : LimState × RequestOutcome :=
  let res := limiterHit st ws
  if res.2 then (res.1, .handled (handlerFor e llm data)) else (res.1, .rateLimited)

/-- One request through the service as configured in app.py: the windows
are the ones derived from `default_limits` and `route_limit`. -/
def serviceHandle (llm : Provider) (c : String) (e : Endpoint) (t : Nat)
    (st : LimState) (data : Option ReqBody) : LimState × RequestOutcome :=
  serviceHandleW (requestWindows c e t) llm e st data

/-- `n` requests from the same client processed one after another against a
single window of quota `q` (the spec requires counter updates to be
serialized, so any interleaving is equivalent to this sequential run).
Returns the final store, the number of requests that reached the adapter,
and the number that were rate limited. -/
def serialRun (llm : Provider) (e : Endpoint) (d : Option ReqBody)
    (k : WinKey) (q : Nat) : Nat → LimState × Nat × Nat
  | 0 => (freshLim, 0, 0)
  | n + 1 =>
    let prev := serialRun llm e d k q n
    let step := serviceHandleW [(k, q)] llm e prev.1 d
    (step.1,
      prev.2.1 + (if outcomeCalls step.2 ≠ [] then 1 else 0),
      prev.2.2 + (if step.2 = .rateLimited then 1 else 0))

/-! ### Auxiliary definitions for the claims -/

/-- The code-generation instruction template exactly as the specification
words it ("You are a coding assistant; generate code for: {prompt}"), to be
compared with the source's `code_template`. -/
def spec_code_template (prompt : String) : String :=
  "You are a coding assistant; generate code for: " ++ prompt

/-- A sampling provider: like `Provider` but drawing on a sample index, so
that output may vary between repetitions of the same call. -/
abbrev SamplingProvider := LLMCall → Nat → String

/-- Modelled from the spec: the provider's output is non-deterministic at
nonzero sampling temperature but stable at zero temperature, i.e. a call
whose temperature is zero yields the same output on every draw. -/
def zeroTempDeterministic (P : SamplingProvider) : Prop :=
  ∀ call r1 r2, call.temperature = 0 → P call r1 = P call r2

/-- classify_text run against a sampling provider on draw `r`. -/
def classify_textND (P : SamplingProvider) (text : String)
    (categories : List String) (r : Nat) : String :=
  P (classify_text_call text categories) r

/-- generate_text run against a sampling provider on draw `r`. -/
def generate_textND (P : SamplingProvider) (prompt : String) (r : Nat) : String :=
  P (generate_text_call prompt) r

/-! ### Helper lemmas -/

/-- Bumping a key increments exactly that key's counter. -/
theorem bump_counts_self (st : LimState) (k : WinKey) :
    (bump st k).counts k = st.counts k + 1 := by
  simp [bump]

/-- The limiter hit on a single window bumps its counter and admits the
request exactly when the bumped counter stays within the quota. -/
theorem limiterHit_single (st : LimState) (k : WinKey) (q : Nat) :
    limiterHit st [(k, q)] = (bump st k, decide (st.counts k + 1 ≤ q)) := by
  simp [limiterHit, bump]

/-- The single-window limiter step: bump the counter, admit exactly when
the bumped counter stays within the quota. -/
theorem serviceHandleW_single (llm : Provider) (e : Endpoint) (st : LimState)
    (d : Option ReqBody) (k : WinKey) (q : Nat) :
    serviceHandleW [(k, q)] llm e st d =
      if st.counts k + 1 ≤ q
      then (bump st k, .handled (handlerFor e llm d))
      else (bump st k, .rateLimited) := by
  rw [serviceHandleW, limiterHit_single]
  by_cases hq : st.counts k + 1 ≤ q <;> simp [hq]

/-! ### Claims -/

/-- C2: a POST to the text-generation or code-generation endpoint whose
parsed body lacks `prompt` or has `prompt` equal to the empty string is
answered with status 400 and body {error: "Prompt is required"}, and no
provider call is made. -/
theorem C2_missing_prompt_rejected (llm : Provider) (d : ReqBody)
    (h : d.prompt = none ∨ d.prompt = some "") :
    TextGeneration_post llm (some d)
        = .ok ({ status := 400, body := .errorMsg "Prompt is required" }, []) ∧
    CodeGeneration_post llm (some d)
        = .ok ({ status := 400, body := .errorMsg "Prompt is required" }, []) := by
  rcases h with h | h <;>
    simp [TextGeneration_post, CodeGeneration_post, truthyStr, h]

/-- Witness for C2 at the empty body. -/
theorem C2_missing_prompt_rejected_witness :
    (({ } : ReqBody).prompt = none ∨ ({ } : ReqBody).prompt = some "") ∧
    (TextGeneration_post (fun _ => .ok "t") (some { })
        = .ok ({ status := 400, body := .errorMsg "Prompt is required" }, []) ∧
     CodeGeneration_post (fun _ => .ok "t") (some { })
        = .ok ({ status := 400, body := .errorMsg "Prompt is required" }, [])) :=
  ⟨Or.inl rfl, C2_missing_prompt_rejected _ _ (Or.inl rfl)⟩

/-- C3: a POST to the classification endpoint whose parsed body lacks
`text`, lacks `categories`, or has an empty `categories` list is answered
with status 400 and body {error: "Text and categories are required"}, and
no provider call is made. -/
theorem C3_missing_classification_fields_rejected (llm : Provider) (d : ReqBody)
    (h : d.text = none ∨ d.categories = none ∨ d.categories = some []) :
    TextClassification_post llm (some d)
        = .ok ({ status := 400,
                 body := .errorMsg "Text and categories are required" }, []) := by
  rcases h with h | h | h <;>
    simp [TextClassification_post, truthyStr, truthyList, h]

/-- Witness for C3 at a body holding only `text`. -/
theorem C3_missing_classification_fields_rejected_witness :
    (({ text := some "t" } : ReqBody).text = none ∨
     ({ text := some "t" } : ReqBody).categories = none ∨
     ({ text := some "t" } : ReqBody).categories = some []) ∧
    TextClassification_post (fun _ => .ok "c") (some { text := some "t" })
        = .ok ({ status := 400,
                 body := .errorMsg "Text and categories are required" }, []) :=
  ⟨Or.inr (Or.inl rfl),
   C3_missing_classification_fields_rejected _ _ (Or.inr (Or.inl rfl))⟩

/-- C4: when validation passes and the invoked adapter operation raises an
exception with string description `s`, each handler returns normally (no
exception escapes) with status 500 and body {error: s}. -/
theorem C4_adapter_exception_maps_to_500 (llm : Provider) (d : ReqBody)
    (s : String) :
    (truthyStr d.prompt = true →
      llm (generate_text_call (d.prompt.getD "")) = .error s →
      TextGeneration_post llm (some d)
        = .ok ({ status := 500, body := .errorMsg s },
               [generate_text_call (d.prompt.getD "")])) ∧
    (truthyStr d.prompt = true →
      llm (generate_code_call (d.prompt.getD "")) = .error s →
      CodeGeneration_post llm (some d)
        = .ok ({ status := 500, body := .errorMsg s },
               [generate_code_call (d.prompt.getD "")])) ∧
    (truthyStr d.text = true → truthyList d.categories = true →
      llm (classify_text_call (d.text.getD "") (d.categories.getD [])) = .error s →
      TextClassification_post llm (some d)
        = .ok ({ status := 500, body := .errorMsg s },
               [classify_text_call (d.text.getD "") (d.categories.getD [])])) := by
  refine ⟨fun hp he => ?_, fun hp he => ?_, fun ht hc he => ?_⟩
  · simp [TextGeneration_post, generate_text, hp, he]
  · simp [CodeGeneration_post, generate_code, hp, he]
  · simp [TextClassification_post, classify_text, ht, hc, he]

/-- Witness for C4 at a fully populated body and an always-raising
provider. -/
theorem C4_adapter_exception_maps_to_500_witness :
    truthyStr (some "p") = true ∧ truthyStr (some "t") = true ∧
    truthyList (some ["c"]) = true ∧
    ((fun _ => Except.error "boom" : Provider) (generate_text_call "p")
        = .error "boom") ∧
    TextGeneration_post (fun _ => Except.error "boom")
        (some { prompt := some "p", text := some "t", categories := some ["c"] })
        = .ok ({ status := 500, body := .errorMsg "boom" },
               [generate_text_call
                 ((({ prompt := some "p", text := some "t",
                      categories := some ["c"] } : ReqBody)).prompt.getD "")]) ∧
    CodeGeneration_post (fun _ => Except.error "boom")
        (some { prompt := some "p", text := some "t", categories := some ["c"] })
        = .ok ({ status := 500, body := .errorMsg "boom" },
               [generate_code_call
                 ((({ prompt := some "p", text := some "t",
                      categories := some ["c"] } : ReqBody)).prompt.getD "")]) ∧
    TextClassification_post (fun _ => Except.error "boom")
        (some { prompt := some "p", text := some "t", categories := some ["c"] })
        = .ok ({ status := 500, body := .errorMsg "boom" },
               [classify_text_call
                 ((({ prompt := some "p", text := some "t",
                      categories := some ["c"] } : ReqBody)).text.getD "")
                 ((({ prompt := some "p", text := some "t",
                      categories := some ["c"] } : ReqBody)).categories.getD [])]) :=
  ⟨by decide, by decide, by decide, rfl,
   (C4_adapter_exception_maps_to_500 (fun _ => Except.error "boom")
      { prompt := some "p", text := some "t", categories := some ["c"] }
      "boom").1 (by decide) rfl,
   (C4_adapter_exception_maps_to_500 (fun _ => Except.error "boom")
      { prompt := some "p", text := some "t", categories := some ["c"] }
      "boom").2.1 (by decide) rfl,
   (C4_adapter_exception_maps_to_500 (fun _ => Except.error "boom")
      { prompt := some "p", text := some "t", categories := some ["c"] }
      "boom").2.2 (by decide) (by decide) rfl⟩

/-- C5 counterexample: at the prompt "x", generate_code does not wrap the
prompt in the template the claim quotes ("You are a coding assistant;
generate code for: {prompt}"); the source's template differs. -/
theorem C5_template_counterexample :
    (generate_code_call "x").input ≠ .messages [spec_code_template "x"] := by
  decide

/-- C5 (amended): generate_code invokes the provider exactly once, with the
prompt wrapped in the fixed instruction template "You are a helpful coding
assistant. Generate code for the following prompt: {prompt}", in precise
mode (low sampling temperature 0.2, strictly below generate_text's 0.7),
and returns the provider's raw text output with no further parsing. -/
theorem C5_generate_code_contract (llm : Provider) (p : String) :
    generate_code llm p = ([generate_code_call p], llm (generate_code_call p)) ∧
    generate_code_call p =
      { model := "gemini-pro", temperature := 2,
        input := .messages
          ["You are a helpful coding assistant. Generate code for the following prompt: "
            ++ p] } ∧
    (generate_code_call p).temperature < (generate_text_call p).temperature :=
  ⟨rfl, rfl, Nat.lt_of_sub_eq_succ rfl⟩

/-- C6: classify_text invokes the provider exactly once, at sampling
temperature zero, on a single prompt that contains the text and the
categories joined in order by ", " and that instructs the provider to
return only the category name; the provider's raw output is returned with
no validation against the category list. -/
theorem C6_classify_text_contract (llm : Provider) (t : String)
    (cs : List String) (_h : cs ≠ []) :
    classify_text llm t cs
        = ([classify_text_call t cs], llm (classify_text_call t cs)) ∧
    (classify_text_call t cs).temperature = 0 ∧
    (classify_text_call t cs).input = .messages [classify_prompt t cs] ∧
    (∃ a b, classify_prompt t cs = a ++ (t ++ b)) ∧
    (∃ a b, classify_prompt t cs
        = a ++ (String.intercalate ", " cs ++ b)) ∧
    classify_prompt t cs
        = "Classify the following text: " ++ sq ++ t ++ sq
            ++ " into one of the following categories: "
            ++ String.intercalate ", " cs
            ++ ". Only return the category name." := by
  refine ⟨rfl, rfl, rfl,
    ⟨"Classify the following text: " ++ sq,
     sq ++ " into one of the following categories: "
       ++ String.intercalate ", " cs ++ ". Only return the category name.",
     ?_⟩,
    ⟨"Classify the following text: " ++ sq ++ t ++ sq
       ++ " into one of the following categories: ",
     ". Only return the category name.", ?_⟩, rfl⟩ <;>
    simp [classify_prompt, String.append_assoc]

/-- Witness for C6 at a concrete text and two categories. -/
theorem C6_classify_text_contract_witness :
    (["positive", "negative"] : List String) ≠ [] ∧
    (classify_text (fun _ => .ok "positive") "great" ["positive", "negative"]
        = ([classify_text_call "great" ["positive", "negative"]],
           (fun _ => Except.ok "positive" : Provider)
             (classify_text_call "great" ["positive", "negative"])) ∧
     (classify_text_call "great" ["positive", "negative"]).temperature = 0 ∧
     (classify_text_call "great" ["positive", "negative"]).input
        = .messages [classify_prompt "great" ["positive", "negative"]] ∧
     (∃ a b, classify_prompt "great" ["positive", "negative"]
        = a ++ ("great" ++ b)) ∧
     (∃ a b, classify_prompt "great" ["positive", "negative"]
        = a ++ (String.intercalate ", " ["positive", "negative"] ++ b)) ∧
     classify_prompt "great" ["positive", "negative"]
        = "Classify the following text: " ++ sq ++ "great" ++ sq
            ++ " into one of the following categories: "
            ++ String.intercalate ", " ["positive", "negative"]
            ++ ". Only return the category name.") :=
  ⟨by decide,
   C6_classify_text_contract (fun _ => .ok "positive") "great"
     ["positive", "negative"] (by decide)⟩

/-- C7: generate_text invokes the provider exactly once, on the raw prompt
with no template wrapping, in creative mode (temperature 0.7, strictly
above generate_code's 0.2), and returns the provider's output verbatim. -/
theorem C7_generate_text_contract (llm : Provider) (p : String) :
    generate_text llm p
        = ([generate_text_call p], llm (generate_text_call p)) ∧
    generate_text_call p
        = { model := "gemini-pro", temperature := 7, input := .raw p } ∧
    (generate_code_call p).temperature < (generate_text_call p).temperature :=
  ⟨rfl, rfl, Nat.lt_of_sub_eq_succ rfl⟩

/-- C8: against any provider that is stable at zero sampling temperature,
two classify_text runs on the same inputs agree (classification runs at
temperature zero), while there is such a provider under which two
generate_text runs on the same prompt differ. -/
theorem C8_classification_deterministic (P : SamplingProvider)
    (h : zeroTempDeterministic P) (t : String) (cs : List String)
    (r1 r2 : Nat) :
    classify_textND P t cs r1 = classify_textND P t cs r2 ∧
    ∃ Q : SamplingProvider, zeroTempDeterministic Q ∧
      ∃ p s1 s2, generate_textND Q p s1 ≠ generate_textND Q p s2 := by
  constructor
  · exact h _ r1 r2 rfl
  · refine ⟨fun c r => if c.temperature = 0 then "" else
        (if r = 0 then "a" else "b"), ?_, "p", 0, 1, ?_⟩
    · intro c r1 r2 hc
      simp [hc]
    · decide

/-- Witness for C8 at a constant provider. -/
theorem C8_classification_deterministic_witness :
    zeroTempDeterministic (fun _ _ => "x") ∧
    (classify_textND (fun _ _ => "x") "a" ["b"] 0
        = classify_textND (fun _ _ => "x") "a" ["b"] 1 ∧
     ∃ Q : SamplingProvider, zeroTempDeterministic Q ∧
       ∃ p s1 s2, generate_textND Q p s1 ≠ generate_textND Q p s2) :=
  ⟨fun _ _ _ _ => rfl,
   C8_classification_deterministic (fun _ _ => "x") (fun _ _ _ _ => rfl)
     "a" ["b"] 0 1⟩

/-- C10: when the parsed request body is None, each handler raises an
AttributeError at the field access, before the validation check and outside
the try/except, so the escaping outcome is not any structured response body
built by the handler, and the adapter is never invoked. -/
theorem C10_none_body_escapes_handler (llm : Provider) :
    TextGeneration_post llm none
        = .error (.attributeError "NoneType object has no attribute get") ∧
    CodeGeneration_post llm none
        = .error (.attributeError "NoneType object has no attribute get") ∧
    TextClassification_post llm none
        = .error (.attributeError "NoneType object has no attribute get") ∧
    (∀ (m : String) (r : Response × List LLMCall),
      (Except.error (PyExn.attributeError m) : HandlerResult) ≠ .ok r) ∧
    outcomeCalls (.handled (TextGeneration_post llm none)) = [] ∧
    outcomeCalls (.handled (CodeGeneration_post llm none)) = [] ∧
    outcomeCalls (.handled (TextClassification_post llm none)) = [] :=
  ⟨rfl, rfl, rfl, fun _ _ h => Except.noConfusion h, rfl, rfl, rfl⟩

/-- C1: the windows applied to every request are exactly the configured
200-per-day and 50-per-hour global quotas plus the 10-per-minute quota of
the request's endpoint; whenever any of these windows is exceeded the
request's outcome is the distinct rate-limited constructor (the 429
equivalent, not a handler response), and the adapter is not invoked. -/
theorem C1_layered_quotas_rate_limit (llm : Provider) (c : String)
    (e : Endpoint) (t : Nat) (st : LimState) (data : Option ReqBody)
    (h : (limiterHit st (requestWindows c e t)).2 = false) :
    (serviceHandle llm c e t st data).2 = .rateLimited ∧
    outcomeCalls (serviceHandle llm c e t st data).2 = [] ∧
    (∀ r : HandlerResult,
      (RequestOutcome.rateLimited : RequestOutcome) ≠ .handled r) ∧
    requestWindows c e t =
      [((c, "app/86400", t / 86400), 200),
       ((c, "app/3600", t / 3600), 50),
       ((c, endpointPath e ++ "/60", t / 60), 10)] := by
  refine ⟨?_, ?_, fun r hr => RequestOutcome.noConfusion hr, ?_⟩
  · simp [serviceHandle, serviceHandleW, h]
  · simp [serviceHandle, serviceHandleW, h, outcomeCalls]
  · cases e <;> rfl

/-- Witness for C1: a client whose counters all stand at 10 exceeds the
per-minute quota and is rejected. -/
theorem C1_layered_quotas_rate_limit_witness :
    (limiterHit ⟨fun _ => 10⟩
        (requestWindows "1.2.3.4" .generateText 0)).2 = false ∧
    ((serviceHandle (fun _ => .ok "t") "1.2.3.4" .generateText 0 ⟨fun _ => 10⟩
        (some { prompt := some "p" })).2 = .rateLimited ∧
     outcomeCalls (serviceHandle (fun _ => .ok "t") "1.2.3.4" .generateText 0
        ⟨fun _ => 10⟩ (some { prompt := some "p" })).2 = [] ∧
     (∀ r : HandlerResult,
       (RequestOutcome.rateLimited : RequestOutcome) ≠ .handled r) ∧
     requestWindows "1.2.3.4" .generateText 0 =
       [(("1.2.3.4", "app/86400", 0 / 86400), 200),
        (("1.2.3.4", "app/3600", 0 / 3600), 50),
        (("1.2.3.4", endpointPath .generateText ++ "/60", 0 / 60), 10)]) :=
  ⟨by decide,
   C1_layered_quotas_rate_limit (fun _ => .ok "t") "1.2.3.4" .generateText 0
     ⟨fun _ => 10⟩ (some { prompt := some "p" }) (by decide)⟩

/-- C9: for a request shape that reaches the adapter when admitted, running
`n` serialized requests from one client against a single window of quota
`q` admits exactly `min n q` of them to the adapter and rate-limits the
remaining `n - min n q`. -/
theorem C9_serialized_min_admission (llm : Provider) (e : Endpoint)
    (d : Option ReqBody) (k : WinKey) (q : Nat)
    (h : outcomeCalls (.handled (handlerFor e llm d)) ≠ []) (n : Nat) :
    (serialRun llm e d k q n).2.1 = min n q ∧
    (serialRun llm e d k q n).2.2 = n - min n q := by
  have key : ∀ m, (serialRun llm e d k q m).1.counts k = m ∧
      (serialRun llm e d k q m).2.1 = min m q ∧
      (serialRun llm e d k q m).2.2 = m - min m q := by
    intro m
    induction m with
    | zero => simp [serialRun, freshLim]
    | succ m ih =>
      obtain ⟨hc, ha, hr⟩ := ih
      have hs : serialRun llm e d k q (m + 1) =
          ((serviceHandleW [(k, q)] llm e (serialRun llm e d k q m).1 d).1,
           (serialRun llm e d k q m).2.1 +
             (if outcomeCalls
                 (serviceHandleW [(k, q)] llm e (serialRun llm e d k q m).1 d).2
                 ≠ [] then 1 else 0),
           (serialRun llm e d k q m).2.2 +
             (if (serviceHandleW [(k, q)] llm e (serialRun llm e d k q m).1 d).2
                 = .rateLimited then 1 else 0)) := rfl
      rw [hs, serviceHandleW_single, hc]
      by_cases hq : m + 1 ≤ q
      · rw [if_pos hq]
        refine ⟨by simp [bump_counts_self, hc], ?_, ?_⟩
        · simp only [h, if_pos, ha]
          simp only [ne_eq, h, not_false_eq_true, if_true]
          omega
        · simp only [hr]
          simp
          omega
      · rw [if_neg hq]
        refine ⟨by simp [bump_counts_self, hc], ?_, ?_⟩
        · simp only [outcomeCalls, ne_eq, not_true_eq_false, if_false, ha]
          simp
          omega
        · simp only [hr]
          simp
          omega
  exact ⟨(key n).2.1, (key n).2.2⟩

/-- Witness for C9: five requests against a quota of two admit two and
rate-limit three. -/
theorem C9_serialized_min_admission_witness :
    outcomeCalls (.handled (handlerFor .generateText (fun _ => .ok "out")
        (some { prompt := some "hi" }))) ≠ [] ∧
    ((serialRun (fun _ => .ok "out") .generateText (some { prompt := some "hi" })
        ("c", "w", 0) 2 5).2.1 = min 5 2 ∧
     (serialRun (fun _ => .ok "out") .generateText (some { prompt := some "hi" })
        ("c", "w", 0) 2 5).2.2 = 5 - min 5 2) :=
  ⟨by decide,
   C9_serialized_min_admission (fun _ => .ok "out") .generateText
     (some { prompt := some "hi" }) ("c", "w", 0) 2 (by decide) 5⟩

end MultiTaskLLM
